import Mathlib

/-!
# Verification of the pytest-llm-report LLM annotation core

Shallow embedding of `src/pytest_llm_report/llm/annotator.py`,
`src/pytest_llm_report/llm/gemini.py` and `src/pytest_llm_report/llm/ollama.py`
(plus `options.py`), with theorems checking the natural-language specification
against the code.

Conventions:
* Python `float` timestamps and durations are modelled as `ℚ` (the claims under
  scrutiny do not depend on floating-point rounding).
* Python `deque`s are Lean `List`s with the front of the list as the left end
  of the deque.
* Python `int | None` fields are `Option Int`; Python truthiness of such a
  field (`if not limit: ...`) is `intOptTruthy`.
* Network calls and the system clock are abstracted as explicit oracles passed
  to the embedded control loops; everything else is translated line by line
  from the source.
* The `models.py` dataclass of the repository for results of an LLM call is called
  `LlmAnnotation` in the source; here it is named `LlmNote` (same fields).
-/

namespace PytestLlmReport

/-- Python truthiness of an `int | None` value (`None` and `0` are falsy). -/
def intOptTruthy : Option Int → Bool
  | none => false
  | some n => n != 0

/-- Python list slice `l[:stop]` (for `stop ≥ 0` this is `take stop`;
a negative `stop` counts from the end). -/
def pySliceTo {α : Type} (l : List α) (stop : Int) : List α :=
  if stop < 0 then l.take (((l.length : Int) + stop).toNat) else l.take stop.toNat

/-! ## Data model

`models.py` is not part of the provided sources; the two records below are
modelled from the spec (§3 TestUnit, §3 Annotation), restricted to the fields
the annotation core reads. -/

/-- Modelled from the spec: §3 TestUnit — one test case requiring an LLM
explanation; the core reads its unique identifier (`nodeid`) and the opt-out
flag (`llm_opt_out`). (`models.py` with the `TestCaseResult` dataclass is not
among the provided sources.) -/
structure TestCaseResult where
  nodeid : String
  llm_opt_out : Bool := false
deriving DecidableEq, Repr

/-- Modelled from the spec: §3 Annotation — the result of calling an LLM:
scenario text, rationale text, key assertion strings, confidence score,
optional error string. (`models.py` with the `LlmAnnotation` dataclass is not
among the provided sources; the constructor calls in the provided providers
use exactly these fields.) -/
structure LlmNote where
  scenario : String := ""
  why_needed : String := ""
  key_assertions : List String := []
  confidence : Option ℚ := none
  error : Option String := none
deriving DecidableEq, Repr

/-- Python truthiness of the `error: str | None` field (`None` and `""` are
falsy), as used by `if annotation.error:` in `annotator.py`. -/
def LlmNote.errorTruthy (a : LlmNote) : Bool :=
  match a.error with
  | none => false
  | some s => s != ""

/-! ## Eligibility filter (`annotator.py`, lines 43–44) -/

/-- Embeds `annotator.py` line 43:
`eligible_tests = [test for test in tests if not test.llm_opt_out]`. -/
def eligible_tests (tests : List TestCaseResult) : List TestCaseResult :=
  tests.filter (fun t => !t.llm_opt_out)

/-- Embeds `annotator.py` line 44:
`limited_tests = eligible_tests[: config.llm_max_tests]`. -/
def limited_tests (tests : List TestCaseResult) (llm_max_tests : Int) :
    List TestCaseResult :=
  pySliceTo (eligible_tests tests) llm_max_tests

/-! ## Gemini rate limiter (`gemini.py`, `_GeminiRateLimiter`) -/

/-- Embeds `gemini.py` `_GeminiRateLimitConfig` (all fields `int | None`). -/
structure GeminiRateLimitConfig where
  requests_per_minute : Option Int := none
  tokens_per_minute : Option Int := none
  requests_per_day : Option Int := none
deriving DecidableEq, Repr

/-- Embeds `gemini.py` `_GeminiRateLimiter`: limits plus the three deques
(`_request_times`, `_token_usage`, `_daily_requests`). The front of each list
is the oldest entry. -/
structure GeminiRateLimiter where
  limits : GeminiRateLimitConfig
  request_times : List ℚ := []
  token_usage : List (ℚ × Int) := []
  daily_requests : List ℚ := []
deriving DecidableEq, Repr

/-- A freshly constructed `_GeminiRateLimiter(limits)`: empty deques. -/
def GeminiRateLimiter.fresh (limits : GeminiRateLimitConfig) : GeminiRateLimiter :=
  { limits := limits }

/-- Embeds `_GeminiRateLimiter._prune(now)`: drop entries older than the 60 s window
from the two per-minute deques and entries older than 86400 s (against the
wall clock `time.time()`, passed here as `wall_now`) from the daily deque.
The Python `while deque and deque[0] < cutoff: popleft()` loops remove a
maximal stale prefix, i.e. `dropWhile`. -/
def GeminiRateLimiter.prune (rl : GeminiRateLimiter) (now wall_now : ℚ) :
    GeminiRateLimiter :=
  { rl with
    request_times := rl.request_times.dropWhile (fun t => decide (t < now - 60)),
    token_usage := rl.token_usage.dropWhile (fun e => decide (e.1 < now - 60)),
    daily_requests :=
      rl.daily_requests.dropWhile (fun t => decide (t < wall_now - 86400)) }

/-- Embeds `_GeminiRateLimiter._seconds_until_rpm_available(now)`.
The `| [] => 0` arm is unreachable for a positive limit (there the Python code
would raise `IndexError`; with `limit > 0` the earlier length test already
returned `0.0` on an empty deque). -/
def GeminiRateLimiter.seconds_until_rpm_available (rl : GeminiRateLimiter)
    (now : ℚ) : ℚ :=
  match rl.limits.requests_per_minute with
  | none => 0
  | some limit =>
    if limit = 0 then 0
    else if (rl.request_times.length : Int) < limit then 0
    else
      match rl.request_times with
      | [] => 0
      | t :: _ => max 0 (t + 60 - now)

/-- The `for timestamp, tokens in self._token_usage:` loop inside
`_seconds_until_tpm_available`: walk the window oldest-first, subtracting each
tokens of each entry from `remaining`; return the (clamped) expiry of the first
entry whose removal lets `remaining + request_tokens` fit under the limit. -/
def tpmScan (usage : List (ℚ × Int)) (remaining limit request_tokens : Int)
    (now : ℚ) : Option ℚ :=
  match usage with
  | [] => none
  | (ts, tok) :: rest =>
    let remaining2 := remaining - tok
    if remaining2 + request_tokens ≤ limit then some (max 0 (ts + 60 - now))
    else tpmScan rest remaining2 limit request_tokens now

/-- Embeds `_GeminiRateLimiter._seconds_until_tpm_available(now, request_tokens)`. -/
def GeminiRateLimiter.seconds_until_tpm_available (rl : GeminiRateLimiter)
    (now : ℚ) (request_tokens : Int) : ℚ :=
  match rl.limits.tokens_per_minute with
  | none => 0
  | some limit =>
    if limit = 0 then 0
    else if request_tokens ≤ 0 then 0
    else if request_tokens ≥ limit ∧ rl.token_usage = [] then 0
    else
      let tokens_used := (rl.token_usage.map Prod.snd).sum
      if tokens_used + request_tokens ≤ limit then 0
      else
        match tpmScan rl.token_usage tokens_used limit request_tokens now with
        | some w => w
        | none =>
          match rl.token_usage with
          | [] => 0
          | (ts, _) :: _ => max 0 (ts + 60 - now)

/-- Embeds `_GeminiRateLimiter.next_available_in(request_tokens)` (value returned).
`now` is `time.monotonic()`, `wall_now` is `time.time()` (used by the daily
pruning inside `_prune`). -/
def GeminiRateLimiter.next_available_in (rl : GeminiRateLimiter)
    (now wall_now : ℚ) (request_tokens : Int) : Option ℚ :=
  let rl2 := rl.prune now wall_now
  if intOptTruthy rl2.limits.requests_per_day ∧
      rl2.limits.requests_per_day.getD 0 ≤ (rl2.daily_requests.length : Int)
  then none
  else
    some (max (rl2.seconds_until_rpm_available now)
      (rl2.seconds_until_tpm_available now request_tokens))

/-- The state `next_available_in` leaves behind (it prunes in place). -/
def GeminiRateLimiter.next_available_state (rl : GeminiRateLimiter)
    (now wall_now : ℚ) : GeminiRateLimiter :=
  rl.prune now wall_now

/-- Embeds `_GeminiRateLimiter._record_request(now)` (with `wall_now` standing for
the `time.time()` appended to the daily deque): append then prune. -/
def GeminiRateLimiter.record_request (rl : GeminiRateLimiter)
    (now wall_now : ℚ) : GeminiRateLimiter :=
  GeminiRateLimiter.prune
    { rl with
      request_times := rl.request_times ++ [now],
      daily_requests := rl.daily_requests ++ [wall_now] }
    now wall_now

/-- Embeds `_GeminiRateLimiter.record_tokens(tokens_used)`. -/
def GeminiRateLimiter.record_tokens (rl : GeminiRateLimiter)
    (now wall_now : ℚ) (tokens_used : Int) : GeminiRateLimiter :=
  if tokens_used ≤ 0 then rl
  else
    GeminiRateLimiter.prune
      { rl with token_usage := rl.token_usage ++ [(now, tokens_used)] }
      now wall_now

/-! ## Python values and response parsing (`_parse_response`) -/

/-- Pointwise update of a function-backed dictionary (`d[k] = v` / `del` via
`none` for `Option`-valued maps). -/
def fupdate {β : Type} (f : String → β) (k : String) (v : β) : String → β :=
  fun x => if x = k then v else f x

/-- A decoded JSON / Python value, as far as `_parse_response` inspects it.
Python `float` payload values are not distinguished from `int` here (the
parsing code never does arithmetic on them). -/
inductive PyValue where
  | pyNone : PyValue
  | pyBool : Bool → PyValue
  | pyInt : Int → PyValue
  | pyStr : String → PyValue
  | pyList : List PyValue → PyValue
  | pyDict : List (String × PyValue) → PyValue

/-- Python truthiness (`if a:`) of a value. -/
def PyValue.truthy : PyValue → Bool
  | pyNone => false
  | pyBool b => b
  | pyInt n => n != 0
  | pyStr s => s != ""
  | pyList xs => !xs.isEmpty
  | pyDict kvs => !kvs.isEmpty

/-- Python `isinstance(v, str)`. -/
def PyValue.isStr : PyValue → Bool
  | pyStr _ => true
  | _ => false

/-- Python `isinstance(v, list)`. -/
def PyValue.isList : PyValue → Bool
  | pyList _ => true
  | _ => false

mutual

/-- Python `repr` of a value, as used by `str()` on non-string containers.
Strings are rendered in single quotes without escaping (faithful for strings
not containing quotes or backslashes). -/
def PyValue.pyRepr : PyValue → String
  | .pyNone => "None"
  | .pyBool true => "True"
  | .pyBool false => "False"
  | .pyInt n => toString n
  | .pyStr s => "\x27" ++ s ++ "\x27"
  | .pyList xs => "[" ++ pyReprList xs ++ "]"
  | .pyDict kvs => "\x7b" ++ pyReprDict kvs ++ "\x7d"

/-- Comma-separated reprs of list elements. -/
def pyReprList : List PyValue → String
  | [] => ""
  | [x] => x.pyRepr
  | x :: y :: rest => x.pyRepr ++ ", " ++ pyReprList (y :: rest)

/-- Comma-separated reprs of dict items. -/
def pyReprDict : List (String × PyValue) → String
  | [] => ""
  | [(k, v)] => "\x27" ++ k ++ "\x27: " ++ v.pyRepr
  | (k, v) :: y :: rest => "\x27" ++ k ++ "\x27: " ++ v.pyRepr ++ ", " ++ pyReprDict (y :: rest)

end

/-- Python `str()` of a value (identity on strings, `repr` otherwise;
booleans, `None` and numbers print the Python way). -/
def PyValue.pyStrFn : PyValue → String
  | .pyStr s => s
  | v => v.pyRepr

/-- Python `dict.get(key, default)` on a decoded JSON object. -/
def pyGet (kvs : List (String × PyValue)) (k : String) (dflt : PyValue) : PyValue :=
  match kvs.lookup k with
  | some v => v
  | none => dflt

/-- The scalar coercion in `_parse_response`:
`if not isinstance(x, str): x = str(x) if x else ""`. -/
def pyStrCoerce (v : PyValue) : String :=
  match v with
  | PyValue.pyStr s => s
  | v => if v.truthy then v.pyStrFn else ""

/-- Modelled abstraction of `extract_json_from_response` (from
`llm/schemas.py`, which is not among the provided sources; spec §4.5:
fence-aware extraction, then `json.loads`) composed with `json.loads`:
a raw provider response is represented by its extraction/decoding outcome.
`noJson` covers a falsy extraction result, `decodeError` a
`json.JSONDecodeError`, and `decoded` a successfully decoded JSON object
(extraction only ever returns `{...}`-delimited slices, so a successful
decode is an object). -/
inductive ExtractResult where
  | noJson : ExtractResult
  | decodeError : ExtractResult
  | decoded : List (String × PyValue) → ExtractResult

/-- Embeds `GeminiProvider._parse_response` / `OllamaProvider._parse_response`
(lines 395–434 of `gemini.py` and 198–241 of `ollama.py`, which are
identical): extract JSON, decode, coerce scalars, require `key_assertions`
to be a list, drop falsy elements, fixed confidence 0.8. -/
def parse_response (r : ExtractResult) : LlmNote :=
  match r with
  | ExtractResult.noJson => { error := some "Failed to parse LLM response as JSON" }
  | ExtractResult.decodeError => { error := some "Failed to parse LLM response as JSON" }
  | ExtractResult.decoded data =>
    let scenario := pyGet data "scenario" (PyValue.pyStr "")
    let why_needed := pyGet data "why_needed" (PyValue.pyStr "")
    let key_assertions := pyGet data "key_assertions" (PyValue.pyList [])
    match key_assertions with
    | PyValue.pyList xs =>
      { scenario := pyStrCoerce scenario,
        why_needed := pyStrCoerce why_needed,
        key_assertions := (xs.filter PyValue.truthy).map PyValue.pyStrFn,
        confidence := some (4 / 5) }
    | _ => { error := some "Invalid response: key_assertions must be a list" }

/-! ## Gemini provider state and model selection (`GeminiProvider.annotate`) -/

/-- The mutable per-provider dictionaries of `GeminiProvider` that the
attempt loop reads and writes: `_rate_limits` (total, with the
`_GeminiRateLimitConfig()` default of `_ensure_rate_limits`; after
`_ensure_models_and_limits` every candidate model has an entry),
`_rate_limiters`, `_model_exhausted_at` and `_cooldowns`. -/
structure GeminiProviderState where
  rate_limits : String → GeminiRateLimitConfig
  rate_limiters : String → Option GeminiRateLimiter
  model_exhausted_at : String → Option ℚ
  cooldowns : String → Option ℚ

/-- Embeds `GeminiProvider._get_rate_limiter`: lazily construct and memoise a fresh
limiter for the model. -/
def getRateLimiter (st : GeminiProviderState) (model : String) :
    GeminiRateLimiter × GeminiProviderState :=
  match st.rate_limiters model with
  | some rl => (rl, st)
  | none =>
    let rl := GeminiRateLimiter.fresh (st.rate_limits model)
    (rl, { st with rate_limiters := fupdate st.rate_limiters model (some rl) })

/-- Outcome of one iteration of the `for model in models:` loop in
`GeminiProvider.annotate` (lines 199–223). -/
inductive ModelCheck where
  | stillExhausted : ModelCheck
  | dailyExhausted : ModelCheck
  | candidate : ℚ → ModelCheck
deriving DecidableEq, Repr

/-- The quota/cooldown check half of the loop body (after the recovery
check): ask the limiter for the wait, mark the model exhausted on the `None`
sentinel, otherwise combine with the remaining 429-cooldown wait. The
in-place pruning done by `next_available_in` is reflected in the stored
limiter. -/
def checkModel (st : GeminiProviderState) (model : String)
    (now wall_now : ℚ) (estimated_tokens : Int) :
    GeminiProviderState × ModelCheck :=
  let p := getRateLimiter st model
  let limiter := p.1
  let st1 := p.2
  let wait := limiter.next_available_in now wall_now estimated_tokens
  let limiter2 := limiter.next_available_state now wall_now
  let st2 := { st1 with rate_limiters := fupdate st1.rate_limiters model (some limiter2) }
  match wait with
  | none =>
    ({ st2 with
        model_exhausted_at := fupdate st2.model_exhausted_at model (some wall_now) },
      ModelCheck.dailyExhausted)
  | some wait_for =>
    let cooldown_until := (st2.cooldowns model).getD 0
    let cooldown_wait := max 0 (cooldown_until - now)
    (st2, ModelCheck.candidate (max wait_for cooldown_wait))

/-- One full iteration of the `for model in models:` loop in
`GeminiProvider.annotate` (lines 199–223), including the 24 h
exhaustion-recovery check (lines 200–214). -/
def processModel (st : GeminiProviderState) (model : String)
    (now wall_now : ℚ) (estimated_tokens : Int) :
    GeminiProviderState × ModelCheck :=
  match st.model_exhausted_at model with
  | some exhausted_at =>
    if 86400 ≤ wall_now - exhausted_at then
      let st1 :=
        { st with model_exhausted_at := fupdate st.model_exhausted_at model none }
      let st2 :=
        match st1.rate_limiters model with
        | some _ =>
          { st1 with
            rate_limiters :=
              fupdate st1.rate_limiters model
                (some (GeminiRateLimiter.fresh (st1.rate_limits model))) }
        | none => st1
      checkModel st2 model now wall_now estimated_tokens
    else (st, ModelCheck.stillExhausted)
  | none => checkModel st model now wall_now estimated_tokens

/-- The whole candidate-collection pass over `models` (one selection cycle),
returning the updated state, the `candidates` list (in model order) and
whether `daily_limit_hit` was set during the pass. -/
def selectionPass (st : GeminiProviderState) (models : List String)
    (now wall_now : ℚ) (estimated_tokens : Int) :
    GeminiProviderState × List (ℚ × String) × Bool :=
  match models with
  | [] => (st, [], false)
  | m :: rest =>
    let r1 := processModel st m now wall_now estimated_tokens
    let r2 := selectionPass r1.1 rest now wall_now estimated_tokens
    match r1.2 with
    | ModelCheck.stillExhausted => r2
    | ModelCheck.dailyExhausted => (r2.1, r2.2.1, true)
    | ModelCheck.candidate w => (r2.1, (w, m) :: r2.2.1, r2.2.2)

/-- Python `min(candidates, key=lambda item: item[0])`: the first element
with the minimal key (ties keep the earlier element), `none` on `[]`
(where Python would raise `ValueError`; `annotate` guards with
`if not candidates: break`). -/
def pyMinByFst (l : List (ℚ × String)) : Option (ℚ × String) :=
  match l with
  | [] => none
  | x :: xs => some (xs.foldl (fun acc y => if y.1 < acc.1 then y else acc) x)

/-! ## The bounded attempt loop of `GeminiProvider.annotate` -/

/-- Result of one `_call_gemini` invocation plus response parsing, as seen by
the attempt loop; the HTTP traffic itself is abstracted as an oracle.
`success` is a returned `(response_text, tokens_used)` pair represented by
its extraction outcome; `limitExceeded` is a raised
`_GeminiRateLimitExceeded(limit_type, retry_after)`; `failure` is any other
exception `e` (network error, HTTP error status), carrying `str(e)`. -/
inductive CallOutcome where
  | success : ExtractResult → Option Int → CallOutcome
  | limitExceeded : String → Option ℚ → CallOutcome
  | failure : String → CallOutcome

/-- The environment of one `annotate` call: candidate models (non-empty after
`_ensure_models_and_limits`), a clock giving `(time.monotonic(), time.time())`
per cycle, the per-cycle call outcome, and the estimated token count. -/
structure AnnotateEnv where
  models : List String
  clock : Nat → ℚ × ℚ
  outcomes : Nat → CallOutcome
  estimated_tokens : Int

/-- Python `exc.retry_after or 60.0` (`None` and `0.0` are falsy). -/
def pyOrQ (x : Option ℚ) (d : ℚ) : ℚ :=
  match x with
  | none => d
  | some q => if q = 0 then d else q

/-- What one iteration of the `while attempts < max_attempts:` loop does:
run a selection cycle, give up (`break`) when there are no candidates,
otherwise commit the selected model (`record_request`), call it, and either
return a parsed result, handle a rate-limit signal, or return the error. -/
inductive StepResult where
  | finished : LlmNote → GeminiProviderState → StepResult
  | raised : String → Option ℚ → StepResult
  | noCandidates : GeminiProviderState → Bool → StepResult
  | next : GeminiProviderState → Bool → StepResult

/-- One iteration of the attempt loop (`gemini.py` lines 194–250). -/
def annotateStep (env : AnnotateEnv) (st : GeminiProviderState)
    (daily_hit : Bool) (cycle : Nat) : StepResult :=
  let c := env.clock cycle
  let now := c.1
  let wall_now := c.2
  let r := selectionPass st env.models now wall_now env.estimated_tokens
  let st1 := r.1
  let daily_hit1 := daily_hit || r.2.2
  match pyMinByFst r.2.1 with
  | none => StepResult.noCandidates st1 daily_hit1
  | some sel =>
    let model := sel.2
    let p := getRateLimiter st1 model
    let limiter2 := p.1.record_request now wall_now
    let st3 :=
      { p.2 with rate_limiters := fupdate p.2.rate_limiters model (some limiter2) }
    match env.outcomes cycle with
    | CallOutcome.success resp tokens_used =>
      let st4 :=
        match tokens_used with
        | some n =>
          { st3 with
            rate_limiters :=
              fupdate st3.rate_limiters model
                (some (limiter2.record_tokens now wall_now n)) }
        | none => st3
      StepResult.finished (parse_response resp) st4
    | CallOutcome.limitExceeded lt ra =>
      if lt = "requests_per_day" then
        StepResult.next
          { st3 with
            model_exhausted_at := fupdate st3.model_exhausted_at model (some wall_now) }
          true
      else if lt = "requests_per_minute" ∨ lt = "tokens_per_minute" then
        StepResult.next
          { st3 with cooldowns := fupdate st3.cooldowns model (some (now + pyOrQ ra 60)) }
          daily_hit1
    else StepResult.raised lt ra
    | CallOutcome.failure msg => StepResult.finished { error := some msg } st3

/-- The annotation returned after the loop ends without a successful call
(`gemini.py` lines 252–258). -/
def finalError (daily_hit : Bool) : LlmNote :=
  if daily_hit then
    { error := some "Gemini requests-per-day limit reached; skipping annotation" }
  else
    { error := some "Gemini rate limits reached for all available models" }

/-- Overall result of `annotate`: a returned annotation record, or an
uncaught re-raised `_GeminiRateLimitExceeded` (the `raise` on line 248,
reachable only for an unknown `limit_type`). -/
inductive AnnotateOutcome where
  | note : LlmNote → AnnotateOutcome
  | raised : String → Option ℚ → AnnotateOutcome
deriving DecidableEq, Repr

/-- The `while attempts < max_attempts:` loop, with `fuel` the number of
remaining iterations; returns the outcome and the number of cycles
executed. -/
def annotateLoopAux (env : AnnotateEnv) (st : GeminiProviderState)
    (daily_hit : Bool) (cycle : Nat) (fuel : Nat) : AnnotateOutcome × Nat :=
  match fuel with
  | 0 => (AnnotateOutcome.note (finalError daily_hit), 0)
  | fuel2 + 1 =>
    match annotateStep env st daily_hit cycle with
    | StepResult.finished a _ => (AnnotateOutcome.note a, 1)
    | StepResult.raised lt ra => (AnnotateOutcome.raised lt ra, 1)
    | StepResult.noCandidates _ dh => (AnnotateOutcome.note (finalError dh), 1)
    | StepResult.next st1 dh =>
      let r := annotateLoopAux env st1 dh (cycle + 1) fuel2
      (r.1, r.2 + 1)

/-- Embeds `max_attempts = max(1, len(models) * 2)` (`gemini.py` line 193). -/
def maxAttempts (models : List String) : Nat :=
  max 1 (models.length * 2)

/-- The attempt loop of `GeminiProvider.annotate` (lines 191–258), from the
initial `daily_limit_hit = False`, `attempts = 0`. -/
def gemini_annotate (env : AnnotateEnv) (st : GeminiProviderState) :
    AnnotateOutcome × Nat :=
  annotateLoopAux env st false 0 (maxAttempts env.models)

/-! ## The retry loop of `GeminiProvider._call_gemini` (lines 348–374) -/

/-- The `Retry-After` header of a 429 response: absent, present but not
parseable as a `float`, or a parsed value. -/
inductive RetryAfterHeader where
  | absent : RetryAfterHeader
  | unparseable : RetryAfterHeader
  | value : ℚ → RetryAfterHeader
deriving DecidableEq, Repr

/-- HTTP response of one attempt: status code and `Retry-After` header. -/
structure HttpTry where
  status_code : Int
  retry_after : RetryAfterHeader
deriving DecidableEq, Repr

/-- How the retry loop of `_call_gemini` ends: `ok` (the response with this
attempt index is used), `httpError` (`raise_for_status` raised on a non-429
error status), or `rateLimited` (the attempt ceiling was exceeded and
`_GeminiRateLimitExceeded("requests_per_minute", retry_after=last_delay)`
was raised). -/
inductive CallGeminiResult where
  | ok : Nat → CallGeminiResult
  | httpError : Nat → CallGeminiResult
  | rateLimited : String → Option ℚ → CallGeminiResult
deriving DecidableEq, Repr

/-- The backoff delay chosen for a 429 at `attempt` (0-based):
the parsed `Retry-After` header when present and parseable as a float,
otherwise `base_backoff * (2 ** attempt)` with `base_backoff = 1.0`. -/
def geminiDelay (h : RetryAfterHeader) (attempt : Nat) : ℚ :=
  match h with
  | RetryAfterHeader.value q => q
  | _ => 1 * 2 ^ attempt

/-- The `for attempt in range(max_retries + 1):` loop of `_call_gemini`,
with `fuel` the remaining iterations. Returns the result, the number of
HTTP posts performed, and the list of sleep delays. The `fuel = 0` arm is
unreachable from `call_gemini` (the loop always exits via `break` or
`raise` before running out of iterations). -/
def callGeminiFrom (responses : Nat → HttpTry) (max_retries : Nat)
    (attempt : Nat) (fuel : Nat) (last_delay : Option ℚ) :
    CallGeminiResult × Nat × List ℚ :=
  match fuel with
  | 0 => (CallGeminiResult.rateLimited "requests_per_minute" last_delay, 0, [])
  | fuel2 + 1 =>
    let r := responses attempt
    if r.status_code = 429 then
      if max_retries ≤ attempt then
        (CallGeminiResult.rateLimited "requests_per_minute" last_delay, 1, [])
      else
        let delay := geminiDelay r.retry_after attempt
        let rec2 := callGeminiFrom responses max_retries (attempt + 1) fuel2 (some delay)
        (rec2.1, rec2.2.1 + 1, delay :: rec2.2.2)
    else if 400 ≤ r.status_code then (CallGeminiResult.httpError attempt, 1, [])
    else (CallGeminiResult.ok attempt, 1, [])

/-- The whole retry loop of `_call_gemini`, with the hardcoded
`max_retries = 3` (line 348): at most `range(3 + 1)` = 4 iterations. -/
def call_gemini (responses : Nat → HttpTry) : CallGeminiResult × Nat × List ℚ :=
  callGeminiFrom responses 3 0 4 none

/-! ## The retry loop of `OllamaProvider.annotate` (lines 78–108) -/

/-- One attempt of the Ollama loop, as seen by `annotate`: either
`_call_ollama` returned a response (represented by its extraction/decoding
outcome, since `_parse_response` is all that looks at it) or some exception
`e` was raised (network error etc.), carrying `str(e)`. -/
inductive OllamaTry where
  | ok : ExtractResult → OllamaTry
  | exn : String → OllamaTry

/-- Does `hay` start with `needle`? (structural helper for substring
containment). -/
def listHasLead : List Char → List Char → Bool
  | [], _ => true
  | _ :: _, [] => false
  | c :: cs, d :: ds => c == d && listHasLead cs ds

/-- Does the character list contain `needle` as a contiguous sublist? -/
def listContainsSub (needle : List Char) : List Char → Bool
  | [] => needle.isEmpty
  | c :: rest => listHasLead needle (c :: rest) || listContainsSub needle rest

/-- Python `needle in haystack` on strings. -/
def pyInStr (needle haystack : String) : Bool :=
  listContainsSub needle.data haystack.data

/-- Python `str.lower()` (ASCII case folding, as the checked needle is
ASCII). -/
def pyLower (s : String) : String :=
  ⟨s.data.map Char.toLower⟩

/-- The `for attempt in range(max_retries):` loop of `OllamaProvider.annotate`
with `fuel` the remaining iterations and `max_retries = 3`: parse errors are
retried (except "context too long" ones), exceptions are retried, a clean
annotation returns immediately. Returns the annotation, the number of
`_call_ollama` calls performed, and the backoff sleeps
(`2 * (attempt + 1)` seconds between attempts). -/
def ollamaLoop (tries : Nat → OllamaTry) (max_retries : Nat)
    (attempt : Nat) (fuel : Nat) (last_error : Option String) :
    LlmNote × Nat × List ℚ :=
  match fuel with
  | 0 =>
    ({ error := some ("Failed after " ++ toString max_retries
        ++ " retries. Last error: " ++
        (match last_error with
         | none => "None"
         | some s => s)) }, 0, [])
  | fuel2 + 1 =>
    let sleeps : List ℚ := if attempt + 1 < max_retries then [2 * (attempt + 1)] else []
    match tries attempt with
    | OllamaTry.ok resp =>
      let a := parse_response resp
      match a.error with
      | none => (a, 1, [])
      | some err =>
        if err = "" then (a, 1, [])
        else if pyInStr "context too long" (pyLower err) then (a, 1, [])
        else
          let rec2 := ollamaLoop tries max_retries (attempt + 1) fuel2 (some err)
          (rec2.1, rec2.2.1 + 1, sleeps ++ rec2.2.2)
    | OllamaTry.exn msg =>
      let rec2 := ollamaLoop tries max_retries (attempt + 1) fuel2 (some msg)
      (rec2.1, rec2.2.1 + 1, sleeps ++ rec2.2.2)

/-- The retry portion of `OllamaProvider.annotate` (after the import and
prompt-building preamble), with the hardcoded `max_retries = 3`. -/
def ollama_annotate (tries : Nat → OllamaTry) : LlmNote × Nat × List ℚ :=
  ollamaLoop tries 3 0 3 none

/-! ## Annotation cache and the orchestrator loop (`annotator.py`) -/

/-- Modelled from the spec: §4.6 Annotation Cache (`cache.py` with `LlmCache`
and `hash_source` is not among the provided sources). A persisted mapping
from `(test identifier, source-content hash)` to an annotation plus a
timestamp; `get` treats entries older than the TTL as absent, `set` stores
unconditionally under the key. -/
structure LlmCache where
  entries : String × String → Option (LlmNote × ℚ)
  ttl : ℚ

/-- Modelled from the spec: `get(test_id, source_hash) -> Annotation | None`;
an entry older than the configured TTL is treated as a miss. -/
def LlmCache.get (c : LlmCache) (nodeid source_hash : String) (now : ℚ) :
    Option LlmNote :=
  match c.entries (nodeid, source_hash) with
  | some e => if now - e.2 ≤ c.ttl then some e.1 else none
  | none => none

/-- Modelled from the spec: `set(test_id, source_hash, annotation)` stores the
annotation under the key with the current timestamp. -/
def LlmCache.set (c : LlmCache) (nodeid source_hash : String) (a : LlmNote)
    (now : ℚ) : LlmCache :=
  { c with
    entries := fun k =>
      if k = (nodeid, source_hash) then some (a, now) else c.entries k }

/-- The collaborators of `annotate_tests`, abstracted: `assemble` is the
test-source half of `ContextAssembler.assemble` (prompts.py; the context-file
map plays no role in the orchestrator logic under scrutiny), `hash_source`
the source hash (modelled from the spec: a content-derived fingerprint of the
exact source text; `cache.py` is not among the provided sources), and
`provider` the outcome `provider.annotate(test, ...)` would produce for a
test (network abstracted as a deterministic oracle). -/
structure OrchestratorEnv where
  assemble : TestCaseResult → String
  hash_source : String → String
  provider : TestCaseResult → LlmNote

/-- What happened to one processed test: the annotation attached to
`test.llm_annotation` and whether it came from the cache. -/
structure TraceEntry where
  test : TestCaseResult
  cached : Bool
  result : LlmNote
deriving DecidableEq, Repr

/-- Result of the orchestrator loop: final cache, the `annotated` /
`failures` / `first_error` counters of `annotate_tests`, and the per-test
trace in processing order. -/
structure OrchestratorResult where
  cache : LlmCache
  annotated : Nat
  failures : Nat
  first_error : Option String
  trace : List TraceEntry

/-- The trace entries that correspond to live calls whose annotation carries a
truthy error (the entries that increment `failures`). -/
def liveFailures (trace : List TraceEntry) : List TraceEntry :=
  trace.filter (fun e => !e.cached && e.result.errorTruthy)

/-- The body of `for index, test in enumerate(limited_tests, start=1):`
(`annotator.py` lines 61–93) as a fold. `now` stands for the wall
clock (inter-request pacing sleeps are time effects with no bearing on the
recorded state). -/
def annotateTestsLoop (env : OrchestratorEnv) (now : ℚ) :
    List TestCaseResult → LlmCache → Nat → Nat → Option String →
    OrchestratorResult
  | [], cache, annotated, failures, first_error =>
    ⟨cache, annotated, failures, first_error, []⟩
  | t :: rest, cache, annotated, failures, first_error =>
    let source_hash := env.hash_source (env.assemble t)
    match cache.get t.nodeid source_hash now with
    | some cached_note =>
      let r := annotateTestsLoop env now rest cache (annotated + 1) failures first_error
      { r with trace := ⟨t, true, cached_note⟩ :: r.trace }
    | none =>
      let a := env.provider t
      let cache2 := cache.set t.nodeid source_hash a now
      let failures2 := if a.errorTruthy then failures + 1 else failures
      let first_error2 :=
        if a.errorTruthy then
          match first_error with
          | none => a.error
          | some e => some e
        else first_error
      let r := annotateTestsLoop env now rest cache2 (annotated + 1) failures2 first_error2
      { r with trace := ⟨t, false, a⟩ :: r.trace }

/-- Embeds `annotate_tests` (minus the enabled/availability preamble): filter out
opted-out tests, apply the `llm_max_tests` cap, then run the loop with all
counters at their initial values. -/
def annotate_tests (env : OrchestratorEnv) (llm_max_tests : Int)
    (tests : List TestCaseResult) (cache : LlmCache) (now : ℚ) :
    OrchestratorResult :=
  annotateTestsLoop env now (limited_tests tests llm_max_tests) cache 0 0 none

/-- The final summary print of `annotate_tests` (lines 95–104): emitted only
when `annotated` is nonzero; reports the annotated count, the failure count
and (when truthy) the first error message. -/
def summaryMessage (provider_name : String) (r : OrchestratorResult) :
    Option String :=
  if r.annotated = 0 then none
  else
    let base := "pytest-llm-report: Annotated " ++ toString r.annotated
      ++ " test(s) via " ++ provider_name ++ " ("
      ++ toString r.failures ++ " error(s))."
    match r.first_error with
    | some e => if e = "" then some base else some (base ++ " First error: " ++ e)
    | none => some base

/-! ## Concrete instances used by counterexamples and witnesses -/

/-- A limiter with a 6-token/minute limit and two 5-token samples in the
window (timestamps 5 and 20). -/
def cexRl : GeminiRateLimiter :=
  { limits := { tokens_per_minute := some 6 }, token_usage := [(5, 5), (20, 5)] }

/-- A two-model provider state: model `"a"` has a daily limit of 1 with one
request already in the daily window; model `"b"` has no limits configured and
no limiter built yet. -/
def stAB : GeminiProviderState :=
  { rate_limits := fun m => if m = "a" then { requests_per_day := some 1 } else {},
    rate_limiters := fun m =>
      if m = "a" then
        some { limits := { requests_per_day := some 1 }, daily_requests := [990] }
      else none,
    model_exhausted_at := fun _ => none,
    cooldowns := fun _ => none }

/-- A provider state with every model marked exhausted at wall-clock 0 and a
limiter carrying pre-exhaustion consumption in its windows. -/
def stExhausted : GeminiProviderState :=
  { rate_limits := fun _ => { requests_per_minute := some 5 },
    rate_limiters := fun _ =>
      some { limits := { requests_per_minute := some 5 },
             request_times := [86300, 86350],
             daily_requests := [86300, 86350] },
    model_exhausted_at := fun _ => some 0,
    cooldowns := fun _ => none }

/-- A one-model annotate environment whose every call raises a plain
exception. -/
def envOne : AnnotateEnv :=
  { models := ["m"], clock := fun _ => (0, 0),
    outcomes := fun _ => CallOutcome.failure "boom",
    estimated_tokens := 1 }

/-- A provider state whose models are freshly exhausted (at wall-clock 0)
with no limiters built. -/
def stStillEx : GeminiProviderState :=
  { rate_limits := fun _ => {}, rate_limiters := fun _ => none,
    model_exhausted_at := fun _ => some 0, cooldowns := fun _ => none }

/-- A two-model annotate environment over `stAB`-like states: every call
raises `_GeminiRateLimitExceeded("requests_per_minute", retry_after=7)`. -/
def envAB : AnnotateEnv :=
  { models := ["a", "b"], clock := fun _ => (100, 1000),
    outcomes := fun _ => CallOutcome.limitExceeded "requests_per_minute" (some 7),
    estimated_tokens := 1 }

/-- An HTTP oracle that always answers 429 with no `Retry-After` header. -/
def always429 : Nat → HttpTry :=
  fun _ => { status_code := 429, retry_after := RetryAfterHeader.absent }

/-- An Ollama oracle whose every response contains no extractable JSON. -/
def allBadOllama : Nat → OllamaTry :=
  fun _ => OllamaTry.ok ExtractResult.noJson

/-- A two-model annotate environment over `stAB`-like states whose calls
return a response with no extractable JSON. -/
def envOkCall : AnnotateEnv :=
  { models := ["a", "b"], clock := fun _ => (100, 1000),
    outcomes := fun _ => CallOutcome.success ExtractResult.noJson none,
    estimated_tokens := 1 }

/-- A decoded response whose `key_assertions` is a string, not a list. -/
def c7bad : List (String × PyValue) :=
  [("scenario", PyValue.pyStr "s"), ("why_needed", PyValue.pyStr "w"),
   ("key_assertions", PyValue.pyStr "not a list")]

/-- A decoded response with a list-valued `key_assertions` containing falsy
elements and non-string elements. -/
def c7good : List (String × PyValue) :=
  [("scenario", PyValue.pyInt 0),
   ("key_assertions",
    PyValue.pyList [PyValue.pyStr "a", PyValue.pyInt 0, PyValue.pyNone,
      PyValue.pyInt 3])]

/-- Orchestrator collaborators for the witnesses: the source is the nodeid,
the hash is the identity, and the provider fails on nodeid `"e"` and succeeds
otherwise. -/
def envOrch : OrchestratorEnv :=
  { assemble := fun t => t.nodeid, hash_source := fun s => s,
    provider := fun t =>
      if t.nodeid = "e" then { error := some "boom" } else { scenario := "ok" } }

/-- Orchestrator collaborators whose provider always fails. -/
def envErr : OrchestratorEnv :=
  { assemble := fun t => t.nodeid, hash_source := fun s => s,
    provider := fun _ => { error := some "boom" } }

/-- An empty cache with the default 24 h TTL. -/
def emptyCache : LlmCache := { entries := fun _ => none, ttl := 86400 }

/-! ## C1 — eligibility filter and the `llm_max_tests` cap -/

/-- C1 (code bug): `annotator.py` line 44 computes
`limited_tests = eligible_tests[: config.llm_max_tests]`, so the documented
default `llm_max_tests = 0` ("0 = no limit (annotate all tests)",
`options.py` line 126) processes *no* tests — the Python slice `[:0]` is
empty, not unlimited. With one eligible test and the cap 0, the eligibility
filter keeps the test but the cap then drops every test. -/
theorem c1_max_tests_zero_processes_no_tests :
    (∀ tests : List TestCaseResult, limited_tests tests 0 = []) ∧
    eligible_tests [{ nodeid := "t1" }] = [{ nodeid := "t1" }] ∧
    limited_tests [{ nodeid := "t1" }] 0 = [] := by
  refine ⟨fun tests => ?_, by decide, by decide⟩
  simp [limited_tests, pySliceTo]

/-! ## C2 — `next_available_in` -/

/-- The wait returned by the token-window scan is the clamped expiry of one
of the entries of the window. -/
theorem tpmScan_mem (now : ℚ) :
    ∀ (usage : List (ℚ × Int)) (remaining limit request_tokens : Int) (w : ℚ),
      tpmScan usage remaining limit request_tokens now = some w →
      ∃ e ∈ usage, w = max 0 (e.1 + 60 - now) := by
  intro usage
  induction usage with
  | nil =>
    intro remaining limit request_tokens w h
    simp [tpmScan] at h
  | cons hd tl ih =>
    intro remaining limit request_tokens w h
    rw [tpmScan] at h
    split at h
    · exact ⟨hd, List.mem_cons_self hd tl, (Option.some.inj h).symm⟩
    · obtain ⟨e, he, hw⟩ := ih _ _ _ _ h
      exact ⟨e, List.mem_cons_of_mem hd he, hw⟩

/-- A nonzero token-dimension wait is the clamped expiry of some entry of the
token window. -/
theorem tpm_wait_mem (rl2 : GeminiRateLimiter) (now : ℚ) (tokens : Int) :
    rl2.seconds_until_tpm_available now tokens ≠ 0 →
    ∃ e ∈ rl2.token_usage,
      rl2.seconds_until_tpm_available now tokens = max 0 (e.1 + 60 - now) := by
  intro hne
  rw [GeminiRateLimiter.seconds_until_tpm_available] at hne ⊢
  rcases hv : rl2.limits.tokens_per_minute with _ | lim
  · rw [hv] at hne
    exact absurd rfl hne
  · rw [hv] at hne
    dsimp only at hne ⊢
    by_cases h0 : lim = 0
    · rw [if_pos h0] at hne
      exact absurd rfl hne
    · rw [if_neg h0] at hne ⊢
      by_cases ht : tokens ≤ 0
      · rw [if_pos ht] at hne
        exact absurd rfl hne
      · rw [if_neg ht] at hne ⊢
        by_cases hfast : tokens ≥ lim ∧ rl2.token_usage = []
        · rw [if_pos hfast] at hne
          exact absurd rfl hne
        · rw [if_neg hfast] at hne ⊢
          by_cases hsum : (rl2.token_usage.map Prod.snd).sum + tokens ≤ lim
          · rw [if_pos hsum] at hne
            exact absurd rfl hne
          · rw [if_neg hsum] at hne ⊢
            rcases hscan : tpmScan rl2.token_usage ((rl2.token_usage.map Prod.snd).sum)
                lim tokens now with _ | w
            · rw [hscan] at hne
              dsimp only at hne ⊢
              rcases hu : rl2.token_usage with _ | ⟨e, rest⟩
              · rw [hu] at hne
                exact absurd rfl hne
              · rw [hu] at hne
                obtain ⟨ts, tok⟩ := e
                exact ⟨(ts, tok), List.mem_cons_self _ _, rfl⟩
            · rw [hscan] at hne
              dsimp only at hne ⊢
              exact tpmScan_mem now _ _ _ _ _ hscan

/-- C2 (amended): after pruning, `next_available_in` returns `None`
exactly when the requests-per-day limit is set (truthy) and the pruned daily
count has reached it; otherwise it returns the max of the request-dimension
and token-dimension waits. The request-dimension wait is 0 when the limit is
unset or zero or when the window holds fewer entries than the limit, and is
the clamped `oldest + 60 - now` otherwise. The token-dimension wait is 0 when
that limit is unset or zero or the request estimate is non-positive, and when
positive it is the clamped `timestamp + 60 - now` of *some* entry of the
token window (the first whose expiry restores capacity — not necessarily the
oldest entry, which is where the claim as stated fails). -/
theorem c2_next_available_in_spec (rl : GeminiRateLimiter) (now wall_now : ℚ)
    (tokens : Int) :
    (rl.next_available_in now wall_now tokens = none ↔
      (intOptTruthy rl.limits.requests_per_day = true ∧
        rl.limits.requests_per_day.getD 0 ≤
          ((rl.prune now wall_now).daily_requests.length : Int))) ∧
    (rl.next_available_in now wall_now tokens ≠ none →
      rl.next_available_in now wall_now tokens =
        some (max ((rl.prune now wall_now).seconds_until_rpm_available now)
          ((rl.prune now wall_now).seconds_until_tpm_available now tokens))) ∧
    (rl.limits.requests_per_minute = none →
      (rl.prune now wall_now).seconds_until_rpm_available now = 0) ∧
    (rl.limits.requests_per_minute = some 0 →
      (rl.prune now wall_now).seconds_until_rpm_available now = 0) ∧
    (∀ lim : Int, rl.limits.requests_per_minute = some lim →
      (((rl.prune now wall_now).request_times.length : Int) < lim →
        (rl.prune now wall_now).seconds_until_rpm_available now = 0) ∧
      (0 < lim → lim ≤ ((rl.prune now wall_now).request_times.length : Int) →
        ∃ t rest, (rl.prune now wall_now).request_times = t :: rest ∧
          (rl.prune now wall_now).seconds_until_rpm_available now =
            max 0 (t + 60 - now))) ∧
    (rl.limits.tokens_per_minute = none →
      (rl.prune now wall_now).seconds_until_tpm_available now tokens = 0) ∧
    (rl.limits.tokens_per_minute = some 0 →
      (rl.prune now wall_now).seconds_until_tpm_available now tokens = 0) ∧
    (tokens ≤ 0 →
      (rl.prune now wall_now).seconds_until_tpm_available now tokens = 0) ∧
    ((rl.prune now wall_now).seconds_until_tpm_available now tokens ≠ 0 →
      ∃ e ∈ (rl.prune now wall_now).token_usage,
        (rl.prune now wall_now).seconds_until_tpm_available now tokens =
          max 0 (e.1 + 60 - now)) := by
  have hlim : (rl.prune now wall_now).limits = rl.limits := rfl
  refine ⟨?_, ?_, ?_, ?_, ?_, ?_, ?_, ?_, ?_⟩
  · rw [GeminiRateLimiter.next_available_in]
    split
    · rename_i hc
      rw [hlim] at hc
      simp [hc]
    · rename_i hc
      rw [hlim] at hc
      simp [hc]
  · intro hne
    rw [GeminiRateLimiter.next_available_in] at hne ⊢
    split at hne
    · simp at hne
    · rename_i hc
      rw [if_neg hc]
  · intro h
    rw [GeminiRateLimiter.seconds_until_rpm_available, hlim, h]
  · intro h
    rw [GeminiRateLimiter.seconds_until_rpm_available, hlim, h]
    simp
  · intro lim h
    constructor
    · intro hlt
      rw [GeminiRateLimiter.seconds_until_rpm_available, hlim, h]
      rcases eq_or_ne lim 0 with h0 | h0
      · simp [h0]
      · simp [h0, hlt]
    · intro hpos hle
      have hne : (rl.prune now wall_now).request_times ≠ [] := by
        intro hnil
        rw [hnil] at hle
        simp at hle
        omega
      obtain ⟨t, rest, hcons⟩ := List.exists_cons_of_ne_nil hne
      refine ⟨t, rest, hcons, ?_⟩
      rw [GeminiRateLimiter.seconds_until_rpm_available, hlim, h, hcons]
      have h0 : lim ≠ 0 := by omega
      have hnlt : ¬ (((t :: rest).length : Int) < lim) := by
        rw [hcons] at hle
        omega
      dsimp only
      rw [if_neg h0, if_neg hnlt]
  · intro h
    rw [GeminiRateLimiter.seconds_until_tpm_available, hlim, h]
  · intro h
    rw [GeminiRateLimiter.seconds_until_tpm_available, hlim, h]
    simp
  · intro h
    rw [GeminiRateLimiter.seconds_until_tpm_available]
    rcases hv : (rl.prune now wall_now).limits.tokens_per_minute with _ | lim
    · rfl
    · simp only
      rcases eq_or_ne lim 0 with h0 | h0
      · simp [h0]
      · simp [h0, h]
  · exact fun hne => tpm_wait_mem (rl.prune now wall_now) now tokens hne

/-- C2 counterexample: with a 6-token/minute limit, samples `(5, 5)` and
`(20, 5)` in the window and a 5-token request at `now = 60`, the code waits
until the *second* entry expires (wait 20), while the claimed
`oldest_timestamp_in_window + 60 - now` formula predicts 5. -/
theorem c2_cex_token_wait_not_oldest :
    cexRl.next_available_in 60 0 5 = some 20 ∧
    (cexRl.prune 60 0).token_usage.head? = some (5, 5) ∧
    max 0 ((5 : ℚ) + 60 - 60) = 5 ∧ (20 : ℚ) ≠ 5 := by
  refine ⟨?_, by norm_num [cexRl, GeminiRateLimiter.prune, List.dropWhile], ?_, by norm_num⟩
  · rw [GeminiRateLimiter.next_available_in]
    norm_num [cexRl, GeminiRateLimiter.prune, GeminiRateLimiter.seconds_until_rpm_available,
      GeminiRateLimiter.seconds_until_tpm_available, tpmScan, intOptTruthy,
      List.dropWhile, max_def]
  · norm_num [max_def]

/-- Witness for the C2 amended theorem at the concrete limiter `cexRl`. -/
theorem c2_witness :
    cexRl.next_available_in 60 0 5 =
      some (max ((cexRl.prune 60 0).seconds_until_rpm_available 60)
        ((cexRl.prune 60 0).seconds_until_tpm_available 60 5)) ∧
    ∃ e ∈ (cexRl.prune 60 0).token_usage,
      (cexRl.prune 60 0).seconds_until_tpm_available 60 5 =
        max 0 (e.1 + 60 - 60) := by
  have h := c2_next_available_in_spec cexRl 60 0 5
  have hne2 : (cexRl.prune 60 0).seconds_until_tpm_available 60 5 ≠ 0 := by
    norm_num [cexRl, GeminiRateLimiter.prune,
      GeminiRateLimiter.seconds_until_tpm_available, tpmScan,
      List.dropWhile, max_def]
  exact ⟨h.2.1 (by decide), h.2.2.2.2.2.2.2.2 hne2⟩

/-! ## C3 — model selection -/

/-- The foldl computing the Python `min` returns an element of `x :: xs`. -/
theorem pyMinFold_mem (xs : List (ℚ × String)) :
    ∀ x, xs.foldl (fun acc y => if y.1 < acc.1 then y else acc) x ∈ x :: xs := by
  induction xs with
  | nil => intro x; simp [List.foldl]
  | cons hd tl ih =>
    intro x
    rw [List.foldl_cons]
    by_cases h : hd.1 < x.1
    · rw [if_pos h]
      have hm := ih hd
      simp only [List.mem_cons] at hm ⊢
      tauto
    · rw [if_neg h]
      have hm := ih x
      simp only [List.mem_cons] at hm ⊢
      tauto

/-- The foldl computing the Python `min` is a lower bound of `x :: xs`. -/
theorem pyMinFold_le (xs : List (ℚ × String)) :
    ∀ x, (xs.foldl (fun acc y => if y.1 < acc.1 then y else acc) x).1 ≤ x.1 ∧
      ∀ y ∈ xs, (xs.foldl (fun acc y => if y.1 < acc.1 then y else acc) x).1 ≤ y.1 := by
  induction xs with
  | nil => intro x; exact ⟨le_refl _, by simp⟩
  | cons hd tl ih =>
    intro x
    rw [List.foldl_cons]
    by_cases h : hd.1 < x.1
    · rw [if_pos h]
      obtain ⟨h1, h2⟩ := ih hd
      refine ⟨le_trans h1 (le_of_lt h), ?_⟩
      intro y hy
      rcases List.mem_cons.1 hy with rfl | hy
      · exact h1
      · exact h2 y hy
    · rw [if_neg h]
      obtain ⟨h1, h2⟩ := ih x
      refine ⟨h1, ?_⟩
      intro y hy
      rcases List.mem_cons.1 hy with rfl | hy
      · exact le_trans h1 (le_of_not_lt h)
      · exact h2 y hy

/-- Evaluation of one selection pass over the concrete two-model state
`stAB` at `now = 100`, `wall_now = 1000`: model `"a"` (daily limit reached)
produces no candidate and is marked exhausted at 1000; model `"b"` is the
only candidate, with zero wait. -/
theorem stAB_selection_eval :
    (selectionPass stAB ["a", "b"] 100 1000 1).2.1 = [(0, "b")] ∧
    (selectionPass stAB ["a", "b"] 100 1000 1).2.2 = true ∧
    (selectionPass stAB ["a", "b"] 100 1000 1).1.model_exhausted_at "a" =
      some 1000 := by
  have hba : (("b" : String) = "a") = False := by simp
  have h990 : (((990 : ℚ) < 1000 - 86400)) = False := by norm_num
  have hm1 : max (0 : ℚ) 0 = 0 := max_self 0
  have hm2 : max (0 : ℚ) (0 - 100) = 0 := by
    rw [max_def]
    norm_num
  simp [selectionPass, processModel, checkModel, getRateLimiter, stAB,
    GeminiRateLimiter.next_available_in, GeminiRateLimiter.next_available_state,
    GeminiRateLimiter.prune, GeminiRateLimiter.seconds_until_rpm_available,
    GeminiRateLimiter.seconds_until_tpm_available, GeminiRateLimiter.fresh,
    intOptTruthy, fupdate, List.dropWhile, hba, h990, hm1, hm2]

/-- How `checkModel` reacts to the limiter verdict: the `None` sentinel marks
the model exhausted at the current wall-clock time and yields no candidate; a
wait yields a candidate whose effective wait is the max of the quota wait and
the remaining cooldown wait. -/
theorem checkModel_spec (st : GeminiProviderState) (model : String)
    (now wall_now : ℚ) (tokens : Int) :
    ((getRateLimiter st model).1.next_available_in now wall_now tokens = none →
      (checkModel st model now wall_now tokens).2 = ModelCheck.dailyExhausted ∧
      (checkModel st model now wall_now tokens).1.model_exhausted_at model =
        some wall_now) ∧
    (∀ w, (getRateLimiter st model).1.next_available_in now wall_now tokens = some w →
      (checkModel st model now wall_now tokens).2 =
        ModelCheck.candidate (max w (max 0 ((st.cooldowns model).getD 0 - now)))) := by
  constructor
  · intro hnone
    rcases hrl : st.rate_limiters model with _ | rl0 <;>
      rw [getRateLimiter] at hnone <;>
      simp only [hrl] at hnone <;>
      simp [checkModel, getRateLimiter, hrl, hnone, fupdate]
  · intro w hsome
    rcases hrl : st.rate_limiters model with _ | rl0 <;>
      rw [getRateLimiter] at hsome <;>
      simp only [hrl] at hsome <;>
      simp [checkModel, getRateLimiter, hrl, hsome, fupdate]

/-- C3: in a selection cycle, a model whose limiter reports the
daily-exhaustion sentinel is skipped and recorded as exhausted at the current
wall-clock time; every remaining candidate carries the max of its quota wait
and its cooldown wait; the selected candidate has the minimal effective wait;
and concretely, with daily-exhausted model `"a"` and model `"b"` with budget,
`"b"` is the only candidate and is selected while `"a"` is marked
exhausted. -/
theorem c3_model_selection (st : GeminiProviderState) (model : String)
    (now wall_now : ℚ) (tokens : Int) :
    (st.model_exhausted_at model = none →
      (getRateLimiter st model).1.next_available_in now wall_now tokens = none →
      (processModel st model now wall_now tokens).2 = ModelCheck.dailyExhausted ∧
      (processModel st model now wall_now tokens).1.model_exhausted_at model =
        some wall_now) ∧
    (∀ w, st.model_exhausted_at model = none →
      (getRateLimiter st model).1.next_available_in now wall_now tokens = some w →
      (processModel st model now wall_now tokens).2 =
        ModelCheck.candidate (max w (max 0 ((st.cooldowns model).getD 0 - now)))) ∧
    (∀ (cands : List (ℚ × String)) (c : ℚ × String), pyMinByFst cands = some c →
      c ∈ cands ∧ ∀ x ∈ cands, c.1 ≤ x.1) ∧
    (selectionPass stAB ["a", "b"] 100 1000 1).2.1 = [(0, "b")] ∧
    (selectionPass stAB ["a", "b"] 100 1000 1).2.2 = true ∧
    (selectionPass stAB ["a", "b"] 100 1000 1).1.model_exhausted_at "a" =
      some 1000 ∧
    pyMinByFst (selectionPass stAB ["a", "b"] 100 1000 1).2.1 = some (0, "b") := by
  have hAB := stAB_selection_eval
  refine ⟨?_, ?_, ?_, hAB.1, hAB.2.1, hAB.2.2, ?_⟩
  · intro hex hnone
    have hck := (checkModel_spec st model now wall_now tokens).1 hnone
    rw [processModel, hex]
    exact hck
  · intro w hex hsome
    have hck := (checkModel_spec st model now wall_now tokens).2 w hsome
    rw [processModel, hex]
    exact hck
  · intro cands c hmin
    rcases cands with _ | ⟨x, xs⟩
    · exact absurd hmin (by simp [pyMinByFst])
    · rw [pyMinByFst] at hmin
      have hc : c = xs.foldl (fun acc y => if y.1 < acc.1 then y else acc) x :=
        (Option.some.inj hmin).symm
      obtain ⟨h1, h2⟩ := pyMinFold_le xs x
      refine ⟨hc ▸ pyMinFold_mem xs x, ?_⟩
      intro y hy
      rcases List.mem_cons.1 hy with rfl | hy
      · exact hc ▸ h1
      · exact hc ▸ h2 y hy
  · rw [hAB.1]
    rfl

/-- Witness for C3 at the concrete two-model state `stAB`. -/
theorem c3_witness :
    (processModel stAB "a" 100 1000 1).2 = ModelCheck.dailyExhausted ∧
    (processModel stAB "a" 100 1000 1).1.model_exhausted_at "a" = some 1000 ∧
    ((0, "b") ∈ [((0 : ℚ), "b")] ∧
      ∀ x ∈ [((0 : ℚ), "b")], ((0 : ℚ), "b").1 ≤ x.1) := by
  have h := c3_model_selection stAB "a" 100 1000 1
  have h990 : (((990 : ℚ) < 1000 - 86400)) = False := by norm_num
  have hnone : (getRateLimiter stAB "a").1.next_available_in 100 1000 1 = none := by
    simp [getRateLimiter, stAB, GeminiRateLimiter.next_available_in,
      GeminiRateLimiter.prune, intOptTruthy, List.dropWhile, h990]
  obtain ⟨hi, _, hiii, _⟩ := h
  exact ⟨(hi rfl hnone).1, (hi rfl hnone).2, hiii [(0, "b")] (0, "b") rfl⟩

/-! ## C4 — exhaustion recovery -/

/-- Pruning a freshly constructed limiter changes nothing. -/
theorem fresh_prune (L : GeminiRateLimitConfig) (now wall_now : ℚ) :
    (GeminiRateLimiter.fresh L).prune now wall_now = GeminiRateLimiter.fresh L := rfl

/-- A fresh limiter has no request-dimension wait. -/
theorem fresh_rpm_zero (L : GeminiRateLimitConfig) (now : ℚ) :
    (GeminiRateLimiter.fresh L).seconds_until_rpm_available now = 0 := by
  rw [GeminiRateLimiter.seconds_until_rpm_available]
  dsimp only [GeminiRateLimiter.fresh]
  rcases L.requests_per_minute with _ | lim
  · rfl
  · dsimp only
    by_cases h0 : lim = 0
    · rw [if_pos h0]
    · rw [if_neg h0]
      by_cases hlt : ((([] : List ℚ).length : Int) < lim)
      · rw [if_pos hlt]
      · rw [if_neg hlt]

/-- A fresh limiter has no token-dimension wait. -/
theorem fresh_tpm_zero (L : GeminiRateLimitConfig) (now : ℚ) (tokens : Int) :
    (GeminiRateLimiter.fresh L).seconds_until_tpm_available now tokens = 0 := by
  rw [GeminiRateLimiter.seconds_until_tpm_available]
  dsimp only [GeminiRateLimiter.fresh]
  rcases L.tokens_per_minute with _ | lim
  · rfl
  · dsimp only
    by_cases h0 : lim = 0
    · rw [if_pos h0]
    · rw [if_neg h0]
      by_cases ht : tokens ≤ 0
      · rw [if_pos ht]
      · rw [if_neg ht]
        by_cases hge : tokens ≥ lim
        · rw [if_pos ⟨hge, rfl⟩]
        · rw [if_neg (fun hc => hge hc.1)]
          have hfit : (List.map Prod.snd ([] : List (ℚ × Int))).sum + tokens ≤ lim := by
            simp
            omega
          rw [if_pos hfit]

/-- A fresh limiter is available immediately whenever its daily limit is
unset, zero or positive. -/
theorem fresh_next_available (L : GeminiRateLimitConfig) (now wall_now : ℚ)
    (tokens : Int)
    (hday : intOptTruthy L.requests_per_day = false ∨ 0 < L.requests_per_day.getD 0) :
    (GeminiRateLimiter.fresh L).next_available_in now wall_now tokens = some 0 := by
  rw [GeminiRateLimiter.next_available_in]
  have hcond : ¬ (intOptTruthy ((GeminiRateLimiter.fresh L).prune now wall_now).limits.requests_per_day = true ∧
      ((GeminiRateLimiter.fresh L).prune now wall_now).limits.requests_per_day.getD 0 ≤
        (((GeminiRateLimiter.fresh L).prune now wall_now).daily_requests.length : Int)) := by
    rw [fresh_prune]
    rcases hday with hf | hp
    · intro hc
      rw [show (GeminiRateLimiter.fresh L).limits = L from rfl] at hc
      rw [hf] at hc
      exact Bool.false_ne_true hc.1
    · intro hc
      have := hc.2
      rw [show (GeminiRateLimiter.fresh L).limits = L from rfl] at this
      simp only [GeminiRateLimiter.fresh] at this
      norm_num at this
      omega
  rw [if_neg hcond, fresh_prune, fresh_rpm_zero, fresh_tpm_zero, max_self]

/-- C4: a model marked exhausted at wall-clock `T` is skipped (state
untouched) in every cycle with `wall_now - T < 24h`; at the first cycle with
`wall_now - T ≥ 24h` the mark is removed, the stored limiter is replaced by a
fresh one with empty windows (no pre-exhaustion consumption carried over),
and the model is again offered as a candidate (with zero quota wait). -/
theorem c4_exhaustion_recovery (st : GeminiProviderState) (model : String)
    (now wall_now T : ℚ) (tokens : Int) :
    (st.model_exhausted_at model = some T → wall_now - T < 86400 →
      processModel st model now wall_now tokens = (st, ModelCheck.stillExhausted)) ∧
    (st.model_exhausted_at model = some T → 86400 ≤ wall_now - T →
      (∃ rl0, st.rate_limiters model = some rl0) →
      (intOptTruthy (st.rate_limits model).requests_per_day = false ∨
        0 < (st.rate_limits model).requests_per_day.getD 0) →
      (processModel st model now wall_now tokens).1.model_exhausted_at model = none ∧
      (processModel st model now wall_now tokens).1.rate_limiters model =
        some (GeminiRateLimiter.fresh (st.rate_limits model)) ∧
      (processModel st model now wall_now tokens).2 =
        ModelCheck.candidate (max 0 (max 0 ((st.cooldowns model).getD 0 - now)))) := by
  constructor
  · intro hex hlt
    rw [processModel, hex]
    dsimp only
    rw [if_neg (by linarith : ¬ (86400 ≤ wall_now - T))]
  · intro hex hge ⟨rl0, hrl⟩ hday
    rw [processModel, hex]
    dsimp only
    rw [if_pos hge]
    rw [show ({ st with model_exhausted_at := fupdate st.model_exhausted_at model none } :
        GeminiProviderState).rate_limiters = st.rate_limiters from rfl, hrl]
    dsimp only
    rw [checkModel, getRateLimiter]
    simp only [fupdate, eq_self_iff_true, if_true]
    rw [fresh_next_available _ _ _ _ hday]
    dsimp only
    refine ⟨by simp [fupdate],
      by simp [fupdate, GeminiRateLimiter.next_available_state, fresh_prune], rfl⟩

/-- Witness for C4 at the concrete exhausted state `stExhausted`:
at `wall_now = 100` the model is still skipped, at `wall_now = 86400` it
recovers with a fresh limiter and becomes a candidate. -/
theorem c4_witness :
    processModel stExhausted "m" 0 100 1 = (stExhausted, ModelCheck.stillExhausted) ∧
    (processModel stExhausted "m" 0 86400 1).1.model_exhausted_at "m" = none ∧
    (processModel stExhausted "m" 0 86400 1).1.rate_limiters "m" =
      some (GeminiRateLimiter.fresh (stExhausted.rate_limits "m")) ∧
    (processModel stExhausted "m" 0 86400 1).2 =
      ModelCheck.candidate (max 0 (max 0 ((stExhausted.cooldowns "m").getD 0 - 0))) := by
  have h1 := c4_exhaustion_recovery stExhausted "m" 0 100 0 1
  have h2 := c4_exhaustion_recovery stExhausted "m" 0 86400 0 1
  have hc := h2.2 rfl (by norm_num) ⟨_, rfl⟩ (Or.inl rfl)
  exact ⟨h1.1 rfl (by norm_num), hc.1, hc.2.1, hc.2.2⟩

/-! ## C5 — the attempt loop is bounded -/

/-- The attempt loop never executes more cycles than its fuel. -/
theorem annotateLoopAux_cycles_le (env : AnnotateEnv) :
    ∀ (fuel : Nat) (st : GeminiProviderState) (daily_hit : Bool) (cycle : Nat),
      (annotateLoopAux env st daily_hit cycle fuel).2 ≤ fuel := by
  intro fuel
  induction fuel with
  | zero =>
    intro st dh cycle
    simp [annotateLoopAux]
  | succ n ih =>
    intro st dh cycle
    rw [annotateLoopAux]
    cases hstep : annotateStep env st dh cycle with
    | finished a st2 => simp [hstep]
    | raised lt ra => simp [hstep]
    | noCandidates st1 dh1 => simp [hstep]
    | next st1 dh1 =>
      simp only [hstep]
      have hr := ih st1 dh1 (cycle + 1)
      omega

/-- With at least one unit of fuel the loop executes at least one cycle. -/
theorem annotateLoopAux_cycles_pos (env : AnnotateEnv) (st : GeminiProviderState)
    (daily_hit : Bool) (cycle fuel : Nat) :
    1 ≤ (annotateLoopAux env st daily_hit cycle (fuel + 1)).2 := by
  rw [annotateLoopAux]
  cases hstep : annotateStep env st daily_hit cycle with
  | finished a st2 => simp [hstep]
  | raised lt ra => simp [hstep]
  | noCandidates st1 dh1 => simp [hstep]
  | next st1 dh1 =>
    simp only [hstep]
    omega

/-- C5: one `annotate` call executes between 1 and
`max(1, 2 × number_of_models)` selection cycles; a cycle with no candidates
ends the loop immediately, with the daily-limit error when a daily cap was
hit and the generic all-models error otherwise. -/
theorem c5_bounded_retry :
    (∀ env st, 1 ≤ (gemini_annotate env st).2 ∧
      (gemini_annotate env st).2 ≤ maxAttempts env.models ∧
      maxAttempts env.models = max 1 (2 * env.models.length)) ∧
    (∀ env st daily_hit cycle fuel st1 dh,
      annotateStep env st daily_hit cycle = StepResult.noCandidates st1 dh →
      annotateLoopAux env st daily_hit cycle (fuel + 1) =
        (AnnotateOutcome.note (finalError dh), 1)) ∧
    finalError true =
      { error := some "Gemini requests-per-day limit reached; skipping annotation" } ∧
    finalError false =
      { error := some "Gemini rate limits reached for all available models" } := by
  refine ⟨?_, ?_, rfl, rfl⟩
  · intro env st
    refine ⟨?_, ?_, by rw [maxAttempts, Nat.mul_comm]⟩
    · have hfuel : maxAttempts env.models = (maxAttempts env.models - 1) + 1 := by
        rw [maxAttempts]
        omega
      rw [gemini_annotate, hfuel]
      exact annotateLoopAux_cycles_pos env st false 0 _
    · rw [gemini_annotate]
      exact annotateLoopAux_cycles_le env _ st false 0
  · intro env st daily_hit cycle fuel st1 dh hstep
    rw [annotateLoopAux]
    simp [hstep]

/-- Witness for C5: with one still-exhausted model the first cycle has no
candidates and the loop stops at once with the generic error. -/
theorem c5_witness :
    annotateLoopAux envOne stStillEx false 0 1 =
      (AnnotateOutcome.note (finalError false), 1) ∧
    1 ≤ (gemini_annotate envOne stStillEx).2 ∧
    (gemini_annotate envOne stStillEx).2 ≤ maxAttempts envOne.models := by
  have h := c5_bounded_retry
  have hq : ((86400 : ℚ) ≤ 0 - 0) = False := by norm_num
  have hq2 : ((86400 : ℚ) ≤ 0) = False := by norm_num
  have hstep : annotateStep envOne stStillEx false 0 =
      StepResult.noCandidates stStillEx false := by
    simp [annotateStep, selectionPass, processModel, envOne, stStillEx,
      pyMinByFst, hq, hq2]
  exact ⟨h.2.1 envOne stStillEx false 0 0 stStillEx false hstep,
    (h.1 envOne stStillEx).1, (h.1 envOne stStillEx).2.1⟩

/-! ## C6 — retry ceiling and backoff in `_call_gemini` -/

/-- C6 counterexample: with every response 429 (and no `Retry-After`
header), the loop performs 4 posts — `max_retries + 1`, not the claimed
"exactly `max_retries` (3) tries" — with backoff delays 1, 2, 4, then raises
the structured condition carrying the last delay. -/
theorem c6_cex_four_tries :
    call_gemini always429 =
      (CallGeminiResult.rateLimited "requests_per_minute" (some 4), 4, [1, 2, 4]) ∧
    (4 : Nat) ≠ 3 := by
  constructor
  · norm_num [call_gemini, callGeminiFrom, always429, geminiDelay]
  · decide

/-- C6 (amended): for an always-429 provider, `_call_gemini` performs
exactly `max_retries + 1 = 4` tries (`max_retries` is hardcoded to 3, not
configurable), sleeping between tries the parsed `Retry-After` value when
present and parseable and the doubling backoff `2^attempt` otherwise, then
raises the structured rate-limit condition tagged `requests_per_minute`
carrying the last delay; the attempt loop turns that signal into a model
cooldown (`now + retry_after or 60`) and continues instead of returning an
error annotation. -/
theorem c6_retry_behavior :
    (∀ responses : Nat → HttpTry, (∀ i, (responses i).status_code = 429) →
      call_gemini responses =
        (CallGeminiResult.rateLimited "requests_per_minute"
          (some (geminiDelay (responses 2).retry_after 2)), 4,
         [geminiDelay (responses 0).retry_after 0,
          geminiDelay (responses 1).retry_after 1,
          geminiDelay (responses 2).retry_after 2])) ∧
    (∀ (q : ℚ) (i : Nat), geminiDelay (RetryAfterHeader.value q) i = q) ∧
    (∀ i : Nat, geminiDelay RetryAfterHeader.absent i = 2 ^ i) ∧
    (∀ i : Nat, geminiDelay RetryAfterHeader.unparseable i = 2 ^ i) ∧
    (∀ env st daily_hit cycle sel ra,
      pyMinByFst (selectionPass st env.models (env.clock cycle).1 (env.clock cycle).2
          env.estimated_tokens).2.1 = some sel →
      env.outcomes cycle = CallOutcome.limitExceeded "requests_per_minute" ra →
      ∃ st2, annotateStep env st daily_hit cycle =
          StepResult.next st2 (daily_hit ||
            (selectionPass st env.models (env.clock cycle).1 (env.clock cycle).2
              env.estimated_tokens).2.2) ∧
        st2.cooldowns sel.2 = some ((env.clock cycle).1 + pyOrQ ra 60)) := by
  refine ⟨?_, fun q i => rfl, fun i => one_mul _, fun i => one_mul _, ?_⟩
  · intro responses h
    rw [call_gemini]
    simp [callGeminiFrom, h 0, h 1, h 2, h 3, geminiDelay]
  · intro env st daily_hit cycle sel ra hmin hout
    simp only [annotateStep, hmin, hout]
    rw [if_neg (by decide : ¬ ("requests_per_minute" : String) = "requests_per_day")]
    rw [if_pos (Or.inl trivial : True ∨
      ("requests_per_minute" : String) = "tokens_per_minute")]
    exact ⟨_, rfl, by simp [fupdate]⟩

/-- Witness for C6 at the always-429 oracle and the concrete two-model
environment `envAB` over `stAB`. -/
theorem c6_witness :
    call_gemini always429 =
      (CallGeminiResult.rateLimited "requests_per_minute"
        (some (geminiDelay (always429 2).retry_after 2)), 4,
       [geminiDelay (always429 0).retry_after 0,
        geminiDelay (always429 1).retry_after 1,
        geminiDelay (always429 2).retry_after 2]) ∧
    ∃ st2, annotateStep envAB stAB false 0 =
        StepResult.next st2 (false ||
          (selectionPass stAB envAB.models (envAB.clock 0).1 (envAB.clock 0).2
            envAB.estimated_tokens).2.2) ∧
      st2.cooldowns ((0 : ℚ), "b").2 = some ((envAB.clock 0).1 + pyOrQ (some 7) 60) := by
  have h := c6_retry_behavior
  have hmin : pyMinByFst (selectionPass stAB envAB.models (envAB.clock 0).1
      (envAB.clock 0).2 envAB.estimated_tokens).2.1 = some (0, "b") := by
    have h1 := stAB_selection_eval.1
    dsimp only [envAB]
    rw [h1]
    rfl
  exact ⟨h.1 always429 (fun i => rfl), h.2.2.2.2 envAB stAB false 0 (0, "b") (some 7) hmin rfl⟩

/-! ## C7 — response validation -/

/-- C7: in `_parse_response` (identical in the Gemini and Ollama
providers), a non-list `key_assertions` is a hard validation failure with the
fixed message, whatever the other fields look like; non-string scalars are
coerced (falsy ones to the empty string, truthy ones via `str()`); strings
pass through; and a list-valued `key_assertions` yields an annotation whose
assertions are the truthy elements coerced to strings, with the fixed
confidence 0.8 and no error. -/
theorem c7_parse_validation :
    (∀ data, (pyGet data "key_assertions" (PyValue.pyList [])).isList = false →
      parse_response (ExtractResult.decoded data) =
        { error := some "Invalid response: key_assertions must be a list" }) ∧
    (∀ v : PyValue, v.isStr = false → v.truthy = false → pyStrCoerce v = "") ∧
    (∀ v : PyValue, v.isStr = false → v.truthy = true → pyStrCoerce v = v.pyStrFn) ∧
    (∀ s : String, pyStrCoerce (PyValue.pyStr s) = s) ∧
    (∀ data xs, pyGet data "key_assertions" (PyValue.pyList []) = PyValue.pyList xs →
      parse_response (ExtractResult.decoded data) =
        { scenario := pyStrCoerce (pyGet data "scenario" (PyValue.pyStr "")),
          why_needed := pyStrCoerce (pyGet data "why_needed" (PyValue.pyStr "")),
          key_assertions := (xs.filter PyValue.truthy).map PyValue.pyStrFn,
          confidence := some (4 / 5),
          error := none }) := by
  refine ⟨?_, ?_, ?_, fun s => rfl, ?_⟩
  · intro data h
    rw [parse_response]
    rcases hv : pyGet data "key_assertions" (PyValue.pyList []) with _ | b | n | s | xs | kvs
    · rfl
    · rfl
    · rfl
    · rfl
    · rw [hv] at h
      simp [PyValue.isList] at h
    · rfl
  · intro v h1 h2
    cases v <;> simp_all [pyStrCoerce, PyValue.isStr]
  · intro v h1 h2
    cases v <;> simp_all [pyStrCoerce, PyValue.isStr]
  · intro data xs h
    simp only [parse_response, h]

/-- Witness for C7 at the concrete decoded objects `c7bad` and `c7good`. -/
theorem c7_witness :
    parse_response (ExtractResult.decoded c7bad) =
      { error := some "Invalid response: key_assertions must be a list" } ∧
    pyStrCoerce (PyValue.pyInt 0) = "" ∧
    pyStrCoerce (PyValue.pyInt 7) = (PyValue.pyInt 7).pyStrFn ∧
    parse_response (ExtractResult.decoded c7good) =
      { scenario := pyStrCoerce (pyGet c7good "scenario" (PyValue.pyStr "")),
        why_needed := pyStrCoerce (pyGet c7good "why_needed" (PyValue.pyStr "")),
        key_assertions :=
          (([PyValue.pyStr "a", PyValue.pyInt 0, PyValue.pyNone,
            PyValue.pyInt 3]).filter PyValue.truthy).map PyValue.pyStrFn,
        confidence := some (4 / 5),
        error := none } := by
  have h := c7_parse_validation
  exact ⟨h.1 c7bad rfl, h.2.1 (PyValue.pyInt 0) rfl rfl,
    h.2.2.1 (PyValue.pyInt 7) rfl rfl, h.2.2.2.2 c7good _ rfl⟩

/-! ## C8 — malformed responses: Gemini vs Ollama -/

/-- C8 counterexample: for the Ollama provider, three consecutive
responses with no extractable JSON are *retried* (3 calls, not 1) and the
final error is the combined retry message, not the bare parse error. -/
theorem c8_cex_ollama_retries_parse_errors :
    (ollama_annotate allBadOllama).1 =
      { error := some "Failed after 3 retries. Last error: Failed to parse LLM response as JSON" } ∧
    (ollama_annotate allBadOllama).2.1 = 3 ∧ (3 : Nat) ≠ 1 := by
  refine ⟨by decide, by decide, by decide⟩

/-- C8 (amended): both parse-failure modes produce the specific
"Failed to parse LLM response as JSON" annotation. In `GeminiProvider`, a
call whose response is malformed returns that annotation from the same
attempt-loop cycle with no retry. In `OllamaProvider`, a malformed response
is retried: three responses whose parses fail (with non-"context too long"
errors) give exactly 3 calls and a combined "Failed after 3 retries" error
embedding the last parse error. -/
theorem c8_malformed_response_handling :
    parse_response ExtractResult.noJson =
      { error := some "Failed to parse LLM response as JSON" } ∧
    parse_response ExtractResult.decodeError =
      { error := some "Failed to parse LLM response as JSON" } ∧
    (∀ env st daily_hit cycle sel resp tk,
      pyMinByFst (selectionPass st env.models (env.clock cycle).1 (env.clock cycle).2
          env.estimated_tokens).2.1 = some sel →
      env.outcomes cycle = CallOutcome.success resp tk →
      ∃ st2, annotateStep env st daily_hit cycle =
        StepResult.finished (parse_response resp) st2) ∧
    (∀ env st daily_hit cycle fuel a st2,
      annotateStep env st daily_hit cycle = StepResult.finished a st2 →
      annotateLoopAux env st daily_hit cycle (fuel + 1) = (AnnotateOutcome.note a, 1)) ∧
    (∀ (tries : Nat → OllamaTry) (r0 r1 r2 : ExtractResult) (e0 e1 e2 : String),
      tries 0 = OllamaTry.ok r0 → tries 1 = OllamaTry.ok r1 → tries 2 = OllamaTry.ok r2 →
      (parse_response r0).error = some e0 → (parse_response r1).error = some e1 →
      (parse_response r2).error = some e2 →
      e0 ≠ "" → e1 ≠ "" → e2 ≠ "" →
      pyInStr "context too long" (pyLower e0) = false →
      pyInStr "context too long" (pyLower e1) = false →
      pyInStr "context too long" (pyLower e2) = false →
      (ollama_annotate tries).1 =
        { error := some ("Failed after " ++ toString (3 : Nat)
          ++ " retries. Last error: " ++ e2) } ∧
      (ollama_annotate tries).2.1 = 3) := by
  refine ⟨rfl, rfl, ?_, ?_, ?_⟩
  · intro env st daily_hit cycle sel resp tk hmin hout
    simp only [annotateStep, hmin, hout]
    exact ⟨_, rfl⟩
  · intro env st daily_hit cycle fuel a st2 hstep
    rw [annotateLoopAux]
    simp [hstep]
  · intro tries r0 r1 r2 e0 e1 e2 h0 h1 h2 hp0 hp1 hp2 hn0 hn1 hn2 hc0 hc1 hc2
    rw [ollama_annotate]
    rw [ollamaLoop]
    simp only [h0, hp0]
    rw [if_neg hn0, if_neg (by simp [hc0])]
    rw [ollamaLoop]
    simp only [h1, hp1]
    rw [if_neg hn1, if_neg (by simp [hc1])]
    rw [ollamaLoop]
    simp only [h2, hp2]
    rw [if_neg hn2, if_neg (by simp [hc2])]
    rw [ollamaLoop]
    exact ⟨rfl, rfl⟩

/-- Witness for C8: the always-malformed Ollama oracle, and a Gemini cycle
whose call returns a malformed response. -/
theorem c8_witness :
    ((ollama_annotate allBadOllama).1 =
      { error := some ("Failed after " ++ toString (3 : Nat)
        ++ " retries. Last error: " ++ "Failed to parse LLM response as JSON") } ∧
     (ollama_annotate allBadOllama).2.1 = 3) ∧
    ∃ st2, annotateStep envOkCall stAB false 0 =
      StepResult.finished (parse_response ExtractResult.noJson) st2 := by
  have h := c8_malformed_response_handling
  have hmin : pyMinByFst (selectionPass stAB envOkCall.models (envOkCall.clock 0).1
      (envOkCall.clock 0).2 envOkCall.estimated_tokens).2.1 = some (0, "b") := by
    have h1 := stAB_selection_eval.1
    dsimp only [envOkCall]
    rw [h1]
    rfl
  refine ⟨h.2.2.2.2 allBadOllama ExtractResult.noJson ExtractResult.noJson
      ExtractResult.noJson _ _ _ rfl rfl rfl rfl rfl rfl (by decide) (by decide)
      (by decide) (by decide) (by decide) (by decide),
    h.2.2.1 envOkCall stAB false 0 (0, "b") ExtractResult.noJson none hmin rfl⟩

/-! ## C9 — per-test failures never abort the orchestrator -/

/-- A truthy error field is a nonempty message. -/
theorem errorTruthy_exists (a : LlmNote) (h : a.errorTruthy = true) :
    ∃ s, a.error = some s := by
  rcases he : a.error with _ | s
  · rw [LlmNote.errorTruthy, he] at h
    exact absurd h (by simp)
  · exact ⟨s, rfl⟩

/-- Invariants of the orchestrator loop, for arbitrary starting accumulators:
every test is processed in order and gets an annotation attached; `annotated`
grows by the number of processed tests; `failures` grows by the number of
live calls whose annotation has a truthy error; `first_error` keeps its value
or takes the first live error. -/
theorem annotateTestsLoop_spec (env : OrchestratorEnv) (now : ℚ) :
    ∀ (tests : List TestCaseResult) (cache : LlmCache) (annotated failures : Nat)
      (first_error : Option String),
      (annotateTestsLoop env now tests cache annotated failures first_error).trace.map
          TraceEntry.test = tests ∧
      (annotateTestsLoop env now tests cache annotated failures first_error).annotated =
        annotated + tests.length ∧
      (annotateTestsLoop env now tests cache annotated failures first_error).failures =
        failures + (liveFailures (annotateTestsLoop env now tests cache annotated
          failures first_error).trace).length ∧
      (annotateTestsLoop env now tests cache annotated failures first_error).first_error =
        (match first_error with
         | some e => some e
         | none =>
           ((liveFailures (annotateTestsLoop env now tests cache annotated failures
             first_error).trace).head?).bind (fun e => e.result.error)) := by
  intro tests
  induction tests with
  | nil =>
    intro cache annotated failures first_error
    refine ⟨rfl, by simp [annotateTestsLoop], by simp [annotateTestsLoop, liveFailures], ?_⟩
    cases first_error <;> simp [annotateTestsLoop, liveFailures]
  | cons t rest ih =>
    intro cache annotated failures first_error
    rw [annotateTestsLoop]
    cases hc : cache.get t.nodeid (env.hash_source (env.assemble t)) now with
    | some a =>
      dsimp only
      obtain ⟨ih1, ih2, ih3, ih4⟩ := ih cache (annotated + 1) failures first_error
      have hlf : liveFailures (⟨t, true, a⟩ ::
          (annotateTestsLoop env now rest cache (annotated + 1) failures
            first_error).trace) =
          liveFailures (annotateTestsLoop env now rest cache (annotated + 1) failures
            first_error).trace := by
        simp [liveFailures]
      refine ⟨?_, ?_, ?_, ?_⟩
      · rw [List.map_cons, ih1]
      · rw [ih2, List.length_cons]
        omega
      · rw [ih3, hlf]
      · rw [ih4, hlf]
    | none =>
      dsimp only
      obtain ⟨ih1, ih2, ih3, ih4⟩ := ih
        (cache.set t.nodeid (env.hash_source (env.assemble t)) (env.provider t) now)
        (annotated + 1)
        (if (env.provider t).errorTruthy then failures + 1 else failures)
        (if (env.provider t).errorTruthy then
          (match first_error with
           | none => (env.provider t).error
           | some e => some e)
         else first_error)
      refine ⟨?_, ?_, ?_, ?_⟩
      · rw [List.map_cons, ih1]
      · rw [ih2, List.length_cons]
        omega
      · rw [ih3]
        cases hb : (env.provider t).errorTruthy with
        | true =>
          simp only [hb] at ih3 ⊢
          simp [liveFailures, hb]
          omega
        | false =>
          simp only [hb] at ih3 ⊢
          simp [liveFailures, hb]
      · cases hb : (env.provider t).errorTruthy with
        | true =>
          obtain ⟨s, hs⟩ := errorTruthy_exists _ hb
          rw [hb] at ih4
          rw [ih4]
          cases first_error with
          | some e => simp
          | none =>
            simp [hs, liveFailures]
            rw [List.find?_cons_of_pos _ (by simp [hb])]
            simp [hs]
        | false =>
          rw [hb] at ih4
          rw [ih4]
          cases first_error with
          | some e => simp
          | none =>
            simp [liveFailures]
            rw [List.find?_cons_of_neg _ (by simp [hb])]

/-- C9: an annotation with a set error never aborts the loop — every test
in the sequence is processed and gets its annotation attached, the failure
count is exactly the number of live calls with a truthy error, `first_error`
is the first such error, the summary is a function of exactly the
`(annotated, failures, first_error)` triple, and a summary is emitted
whenever anything was annotated. -/
theorem c9_error_containment (env : OrchestratorEnv) (now : ℚ)
    (tests : List TestCaseResult) (cache : LlmCache) (name : String) :
    (annotateTestsLoop env now tests cache 0 0 none).trace.map TraceEntry.test =
      tests ∧
    (annotateTestsLoop env now tests cache 0 0 none).annotated = tests.length ∧
    (annotateTestsLoop env now tests cache 0 0 none).failures =
      (liveFailures (annotateTestsLoop env now tests cache 0 0 none).trace).length ∧
    (annotateTestsLoop env now tests cache 0 0 none).first_error =
      ((liveFailures (annotateTestsLoop env now tests cache 0 0 none).trace).head?).bind
        (fun e => e.result.error) ∧
    (∀ r1 r2 : OrchestratorResult, r1.annotated = r2.annotated →
      r1.failures = r2.failures → r1.first_error = r2.first_error →
      summaryMessage name r1 = summaryMessage name r2) ∧
    ((annotateTestsLoop env now tests cache 0 0 none).annotated ≠ 0 →
      (summaryMessage name (annotateTestsLoop env now tests cache 0 0 none)).isSome =
        true) := by
  obtain ⟨h1, h2, h3, h4⟩ := annotateTestsLoop_spec env now tests cache 0 0 none
  refine ⟨h1, by rw [h2]; omega, by rw [h3]; omega, h4, ?_, ?_⟩
  · intro r1 r2 ha hf he
    simp only [summaryMessage, ha, hf, he]
  · intro hne
    rw [summaryMessage, if_neg hne]
    rcases (annotateTestsLoop env now tests cache 0 0 none).first_error with _ | e
    · rfl
    · dsimp only
      split <;> rfl

/-- Witness for C9 at a three-test run in which the live
annotation of the middle test fails. -/
theorem c9_witness :
    (annotateTestsLoop envOrch 0
        [⟨"ok1", false⟩, ⟨"e", false⟩, ⟨"ok2", false⟩] emptyCache 0 0 none).annotated =
      3 ∧
    summaryMessage "litellm"
        (annotateTestsLoop envOrch 0
          [⟨"ok1", false⟩, ⟨"e", false⟩, ⟨"ok2", false⟩] emptyCache 0 0 none) =
      summaryMessage "litellm"
        (annotateTestsLoop envOrch 0
          [⟨"ok1", false⟩, ⟨"e", false⟩, ⟨"ok2", false⟩] emptyCache 0 0 none) ∧
    (summaryMessage "litellm"
        (annotateTestsLoop envOrch 0
          [⟨"ok1", false⟩, ⟨"e", false⟩, ⟨"ok2", false⟩] emptyCache 0 0 none)).isSome =
      true := by
  have h := c9_error_containment envOrch 0
    [⟨"ok1", false⟩, ⟨"e", false⟩, ⟨"ok2", false⟩] emptyCache "litellm"
  refine ⟨?_, h.2.2.2.2.1 _ _ rfl rfl rfl, h.2.2.2.2.2 ?_⟩
  · rw [h.2.1]
    rfl
  · rw [h.2.1]
    simp

/-! ## C10 — failed annotations are cached and short-circuit later runs -/

/-- C10: a cache miss leads to a live call whose result — error or not —
is stored under `(nodeid, source hash)`; within the TTL a later run for the
same unchanged test gets a cache hit carrying that very annotation, with no
live call. -/
theorem c10_cache_write_unconditional (env : OrchestratorEnv)
    (t : TestCaseResult) (cache : LlmCache) (now now2 : ℚ)
    (hmiss : cache.get t.nodeid (env.hash_source (env.assemble t)) now = none)
    (httl : now2 - now ≤ cache.ttl) :
    (annotateTestsLoop env now [t] cache 0 0 none).trace =
      [⟨t, false, env.provider t⟩] ∧
    (annotateTestsLoop env now [t] cache 0 0 none).cache.get t.nodeid
      (env.hash_source (env.assemble t)) now2 = some (env.provider t) ∧
    (annotateTestsLoop env now2 [t]
        (annotateTestsLoop env now [t] cache 0 0 none).cache 0 0 none).trace =
      [⟨t, true, env.provider t⟩] := by
  have hcache1 : (annotateTestsLoop env now [t] cache 0 0 none).cache =
      cache.set t.nodeid (env.hash_source (env.assemble t)) (env.provider t) now := by
    rw [annotateTestsLoop]
    simp only [hmiss]
    rfl
  have htrace1 : (annotateTestsLoop env now [t] cache 0 0 none).trace =
      [⟨t, false, env.provider t⟩] := by
    rw [annotateTestsLoop]
    simp only [hmiss]
    rfl
  have hget : (annotateTestsLoop env now [t] cache 0 0 none).cache.get t.nodeid
      (env.hash_source (env.assemble t)) now2 = some (env.provider t) := by
    rw [hcache1, LlmCache.set, LlmCache.get]
    dsimp only
    rw [if_pos rfl]
    dsimp only
    rw [if_pos httl]
  refine ⟨htrace1, hget, ?_⟩
  rw [annotateTestsLoop]
  simp only [hget]
  rfl

/-- Witness for C10: a provider whose annotation has `error = "boom"` is
cached on the first run and served from the cache on a second run 100 s
later. -/
theorem c10_witness :
    (annotateTestsLoop envErr 0 [⟨"t1", false⟩] emptyCache 0 0 none).trace =
      [⟨⟨"t1", false⟩, false, envErr.provider ⟨"t1", false⟩⟩] ∧
    (annotateTestsLoop envErr 0 [⟨"t1", false⟩] emptyCache 0 0 none).cache.get
      (TestCaseResult.mk "t1" false).nodeid
      (envErr.hash_source (envErr.assemble ⟨"t1", false⟩)) 100 =
      some (envErr.provider ⟨"t1", false⟩) ∧
    (annotateTestsLoop envErr 100 [⟨"t1", false⟩]
        (annotateTestsLoop envErr 0 [⟨"t1", false⟩] emptyCache 0 0 none).cache
        0 0 none).trace =
      [⟨⟨"t1", false⟩, true, envErr.provider ⟨"t1", false⟩⟩] ∧
    (envErr.provider ⟨"t1", false⟩).errorTruthy = true := by
  have h := c10_cache_write_unconditional envErr ⟨"t1", false⟩ emptyCache 0 100
    rfl (by norm_num [emptyCache])
  exact ⟨h.1, h.2.1, h.2.2, rfl⟩

end PytestLlmReport
